import Mathlib

/-
Verification of the query-understanding / response-synthesis pipeline of the
multilingual customer-support service.

Shallow embedding of:
  * src/src/ml/intent_classifier.py   (IntentClassifier.classify_intent)
  * src/src/backend/app.py            (keyword-fallback intent scoring in process_query)
  * src/src/ml/response_generator.py  (_get_translation_model, translate, get_response)
  * src/src/ml/language_detector.py   (LanguageDetector.detect_language)

Real-valued similarity scores and confidences are modelled over ℚ.  The
embedding / translation models themselves are external artifacts; they are
modelled as explicit function parameters (`encode`, `cosSim`, `loader`,
`runT`, `primary`), and their fallible calls return `Option`.
-/

namespace CSupport

/-! ## Intent classifier, primary (embedding-similarity) path
`IntentClassifier.classify_intent`, src/src/ml/intent_classifier.py lines 107-146. -/

/-- Binary maximum on ℚ, written with an explicit comparison so that
concrete instances evaluate by kernel reduction. -/
def rmax (a b : ℚ) : ℚ :=
  if a ≤ b then b else a

/-- Binary minimum on ℚ, written with an explicit comparison so that
concrete instances evaluate by kernel reduction (Python's `min`). -/
def rmin (a b : ℚ) : ℚ :=
  if a ≤ b then a else b

/-- Rational addition written through `mkRat` so that concrete instances
evaluate by kernel reduction; provably equal to `+` (`qadd_eq`). -/
def qadd (a b : ℚ) : ℚ :=
  mkRat (a.num * b.den + a.den * b.num) (a.den * b.den)

/-- Rational multiplication written through `mkRat` so that concrete
instances evaluate by kernel reduction; provably equal to `*` (`qmul_eq`). -/
def qmul (a b : ℚ) : ℚ :=
  mkRat (a.num * b.num) (a.den * b.den)

/-- Maximum of a list of rationals: `similarities.max().item()` (line 133).
Python's `max` raises on an empty tensor; every intent has at least one
exemplar, so the `[]` case is unreachable there and returns `-1` here. -/
def listMaxD : List ℚ → ℚ
  | [] => -1
  | a :: t => t.foldl rmax a

/-- One iteration of the loop over `self.intent_embeddings.items()`
(lines 130-137): `if max_intent_similarity > max_similarity:` update
`max_similarity` and `best_intent`, else keep the accumulator. -/
def selectStep (acc : String × ℚ) (p : String × ℚ) : String × ℚ :=
  if acc.2 < p.2 then p else acc

/-- The whole loop, started from `max_similarity = -1`, `best_intent = "unknown"`
(lines 127-128). -/
def selectBest (l : List (String × ℚ)) : String × ℚ :=
  l.foldl selectStep ("unknown", -1)

/-- Per-intent maximum similarity scores, in the declaration order of the
exemplar table: for each intent, the cosine similarity of the encoded input
against every exemplar embedding, then the per-intent maximum
(lines 130-133).  `cosSim` stands for `util.pytorch_cos_sim` and `textEmb`
for `self.model.encode(text)`. -/
def intentScores {Emb : Type} (cosSim : Emb → Emb → ℚ) (textEmb : Emb)
    (intentEmbeddings : List (String × List Emb)) : List (String × ℚ) :=
  intentEmbeddings.map fun p => (p.1, listMaxD (p.2.map fun e => cosSim textEmb e))

/-- The running maximum similarity alone, as the loop computes it:
a fold of `rmax` started from `-1` over the per-intent maxima. -/
def globalMax (l : List (String × ℚ)) : ℚ :=
  l.foldl (fun m p => rmax m p.2) (-1)

/-- `IntentClassifier.classify_intent(text, threshold=0.5)` (lines 107-146).
If the model failed to load or there are no embeddings, return
`("unknown", 0.0)` (lines 119-120).  Otherwise run the argmax loop and, when
the global maximum similarity is strictly below the threshold, return
`"unknown"` paired with that maximum (lines 139-141); else the best intent
with the maximum (line 143). -/
def classify_intent {Emb : Type} (encode : String → Emb) (cosSim : Emb → Emb → ℚ)
    (intentEmbeddings : List (String × List Emb)) (initialized : Bool)
    (text : String) (threshold : ℚ) : String × ℚ :=
  if !initialized || intentEmbeddings.isEmpty then ("unknown", 0)
  else if (selectBest (intentScores cosSim (encode text) intentEmbeddings)).2 < threshold then
    ("unknown", (selectBest (intentScores cosSim (encode text) intentEmbeddings)).2)
  else
    selectBest (intentScores cosSim (encode text) intentEmbeddings)

/-! ## Intent classifier, keyword-heuristic fallback path
The intent-detection section of `process_query`, src/src/backend/app.py
lines 188-231. -/

/-- Bool-valued substring test on character lists: the needle occurs
contiguously in the haystack (Python's `keyword in text_lower`). -/
def charsHasSub : List Char → List Char → Bool
  | n, [] => n.isEmpty
  | n, c :: t => n.isPrefixOf (c :: t) || charsHasSub n t

/-- Python's `keyword in text_lower` substring containment. -/
def containsSubstr (needle haystack : String) : Bool :=
  charsHasSub needle.toList haystack.toList

/-- Python's `text.lower()`, restricted to its ASCII action (all keyword
comparisons in the code are ASCII); written over the character list so
that concrete instances evaluate by kernel reduction. -/
def strLower (s : String) : String :=
  String.mk (s.data.map Char.toLower)

/-- Accumulator pass behind `pySplit`: walk the characters, collecting the
current token in reverse; whitespace closes the token. -/
def splitWSAux : List Char → List Char → List String
  | [], cur => if cur.isEmpty then [] else [String.mk cur.reverse]
  | c :: rest, cur =>
    if c.isWhitespace then
      if cur.isEmpty then splitWSAux rest []
      else String.mk cur.reverse :: splitWSAux rest []
    else splitWSAux rest (c :: cur)

/-- Python's `s.split()` with no argument: maximal runs of
non-whitespace characters, empty fragments dropped. -/
def pySplit (s : String) : List String :=
  splitWSAux s.data []

/-- The score of one intent's keyword list against the (already lowercased)
input text (lines 215-219): `matches` counts keywords occurring as substrings
of the text, `partial_matches` counts keywords some whitespace token of the
text starts with, and the total is `matches + partial_matches * 0.5`. -/
def intentScore (textLower : String) (keywords : List String) : ℚ :=
  qadd
    (mkRat ((keywords.filter fun k => containsSubstr k textLower).length : ℤ) 1)
    (qmul
      (mkRat ((keywords.filter fun k =>
        (pySplit textLower).any fun w => k.toList.isPrefixOf w.toList).length : ℤ) 1)
      (mkRat 1 2))

/-- One iteration of `for intent, keywords in intent_patterns.items():`
(lines 214-225): state is `(matched_intent, max_matches, intent_confidence)`;
when `total_matches > max_matches`, all three fields are replaced, the
confidence becoming `min(0.5 + total_matches * 0.1, 0.95)`. -/
def pqStep (textLower : String) (acc : String × ℚ × ℚ) (p : String × List String) :
    String × ℚ × ℚ :=
  if acc.2.1 < intentScore textLower p.2 then
    (p.1, intentScore textLower p.2,
      rmin (qadd (mkRat 1 2) (qmul (intentScore textLower p.2) (mkRat 1 10))) (mkRat 19 20))
  else acc

/-- The keyword-fallback intent classification of `process_query` for an
arbitrary pattern table: lowercase the text (line 188), run the scoring loop
from `("unknown", 0, 0.5)` (lines 210-225), and finally reclassify an
unmatched short input (at most 3 whitespace tokens) as a greeting with
confidence `0.6` (lines 227-230). -/
def process_query_intent_with (patterns : List (String × List String))
    (text : String) : String × ℚ :=
  if (patterns.foldl (pqStep (strLower text)) ("unknown", 0, mkRat 1 2)).1 = "unknown"
      ∧ (pySplit (strLower text)).length ≤ 3 then
    ("greeting", mkRat 3 5)
  else
    ((patterns.foldl (pqStep (strLower text)) ("unknown", 0, mkRat 1 2)).1,
      (patterns.foldl (pqStep (strLower text)) ("unknown", 0, mkRat 1 2)).2.2)

/-- Keyword list for intent `"greeting"` (app.py lines 192-193). -/
def greetingKeywords : List String :=
  ["hello", "hi", "hey", "greetings", "good morning", "good afternoon", "good evening",
   "hola", "bonjour", "ciao", "hallo", "howdy", "what\x27s up", "sup"]

/-- Keyword list for intent `"farewell"` (app.py lines 194-195). -/
def farewellKeywords : List String :=
  ["goodbye", "bye", "see you", "farewell", "adios", "au revoir", "cya", "take care",
   "have a nice day", "until next time", "talk to you later", "ttyl"]

/-- Keyword list for intent `"help"` (app.py lines 196-197). -/
def helpKeywords : List String :=
  ["help", "assist", "support", "guidance", "need help", "can you help", "how do i",
   "how to", "having trouble", "problem with", "issue with", "question about",
   "confused about"]

/-- Keyword list for intent `"product_info"` (app.py lines 198-200). -/
def productInfoKeywords : List String :=
  ["product", "service", "offer", "sell", "feature", "plan",
   "subscription", "package", "demo", "information about", "tell me about",
   "what is", "how does", "how do you", "what are your"]

/-- Keyword list for intent `"pricing"` (app.py lines 201-202). -/
def pricingKeywords : List String :=
  ["price", "cost", "pricing", "fee", "subscription cost", "how much", "discount",
   "trial", "free trial", "payment", "pay", "affordable", "expensive", "cheap", "premium"]

/-- Keyword list for intent `"contact"` (app.py lines 203-204). -/
def contactKeywords : List String :=
  ["contact", "email", "phone", "call", "reach", "talk to", "speak with", "chat with",
   "customer service", "representative", "agent", "human", "person", "manager"]

/-- Keyword list for intent `"technical_support"` (app.py lines 205-206). -/
def technicalSupportKeywords : List String :=
  ["technical", "tech support", "bug", "error", "issue", "problem", "not working",
   "broken", "fix", "repair", "troubleshoot", "crash", "glitch", "malfunction"]

/-- The `intent_patterns` table of `process_query` (app.py lines 191-207),
in declaration order. -/
def intent_patterns : List (String × List String) :=
  [("greeting", greetingKeywords),
   ("farewell", farewellKeywords),
   ("help", helpKeywords),
   ("product_info", productInfoKeywords),
   ("pricing", pricingKeywords),
   ("contact", contactKeywords),
   ("technical_support", technicalSupportKeywords)]

/-- The keyword-fallback classifier on the concrete pattern table of the code. -/
def process_query_intent (text : String) : String × ℚ :=
  process_query_intent_with intent_patterns text

/-! ## Response generator and translation-handle cache
`ResponseGenerator`, src/src/ml/response_generator.py.
The `(tokenizer, model)` pair produced by `from_pretrained` is modelled as a
single abstract handle of type `H`; the fallible hub resolution
`MarianTokenizer.from_pretrained` / `MarianMTModel.from_pretrained` is the
parameter `loader` (`none` models the caught exception), and running the
loaded model on a text is the parameter `runT` (`none` models the caught
per-call translation exception). -/

/-- Mutable state of a `ResponseGenerator`: the `self.translation_models`
dict (an association list keyed by the `"source-target"` model key, in
insertion order) together with an observation counter `loads` of how many
times `from_pretrained` was invoked — the load-counter mock of the spec's
test plan.  The counter is pure instrumentation: no definition branches
on it. -/
structure GenState (H : Type) where
  cache : List (String × H)
  loads : ℕ
  deriving Repr, DecidableEq

/-- `ResponseGenerator._get_translation_model(source_lang, target_lang)`
(lines 95-129).  Equal languages return no model (lines 106-107).  On a
cache miss the loader is called; success stores the handle under the model
key (line 123) and the final `self.translation_models.get(model_key, (None,
None))` (line 129) then yields it; the caught load failure returns `(None,
None)` directly (lines 125-127) — note that nothing is stored in the cache
in that branch.  Each loader call ticks the `loads` counter. -/
def get_translation_model {H : Type} (loader : String → Option H)
    (st : GenState H) (sourceLang targetLang : String) :
    Option H × GenState H :=
  if sourceLang = targetLang then (none, st)
  else
    match st.cache.lookup (sourceLang ++ "-" ++ targetLang) with
    | some h => (some h, st)
    | none =>
      match loader (sourceLang ++ "-" ++ targetLang) with
      | some h =>
        (some h, { cache := (sourceLang ++ "-" ++ targetLang, h) :: st.cache,
                   loads := st.loads + 1 })
      | none => (none, { st with loads := st.loads + 1 })

/-- `ResponseGenerator.translate(text, source_lang, target_lang)`
(lines 131-162).  Equal languages return the text unchanged (lines 143-144);
a missing model returns `None` (lines 147-149); otherwise the model runs,
with any exception caught into `None` (lines 151-162). -/
def translate {H : Type} (loader : String → Option H)
    (runT : H → String → Option String) (st : GenState H)
    (text sourceLang targetLang : String) : Option String × GenState H :=
  if sourceLang = targetLang then (some text, st)
  else
    match get_translation_model loader st sourceLang targetLang with
    | (none, st1) => (none, st1)
    | (some h, st1) => (runT h text, st1)

/-- `ResponseGenerator.get_response(intent, language)` (lines 164-196) over
an arbitrary response table (an association list mirroring the
insertion-ordered `self.responses` dict of dicts).  An intent absent from
the table is replaced by `"unknown"` (lines 176-177); the `none` result
models the `KeyError` that `self.responses[intent]` would raise were
`"unknown"` itself absent (line 180), and the `StopIteration` that
`next(iter(...))` would raise on an empty per-intent table (line 195).
A direct template for the language is returned verbatim (lines 183-184).
Otherwise the English template is translated (lines 187-191); Python's
`if translated:` treats both `None` and the empty string as false, falling
back to the English text (line 192).  Without an English template, the
first language key's template is returned (lines 195-196). -/
def get_response {H : Type} (loader : String → Option H)
    (runT : H → String → Option String)
    (responses : List (String × List (String × String)))
    (st : GenState H) (intent language : String) :
    Option String × GenState H :=
  match responses.lookup (if (responses.lookup intent).isNone then "unknown" else intent) with
  | none => (none, st)
  | some templates =>
    match templates.lookup language with
    | some r => (some r, st)
    | none =>
      match templates.lookup "en" with
      | some enText =>
        match translate loader runT st enText "en" language with
        | (some tr, st1) => if tr = "" then (some enText, st1) else (some tr, st1)
        | (none, st1) => (some enText, st1)
      | none =>
        match templates.head? with
        | some p => (some p.2, st)
        | none => (none, st)

/-- The hard-coded English-only response table returned by
`_load_responses` when the responses file exists but cannot be parsed
(response_generator.py lines 88-93): a concrete instance of the
ResponseTable used to instantiate the generic theorems. -/
def fallbackResponses : List (String × List (String × String)) :=
  [("greeting", [("en", "Hello! How can I assist you today?")]),
   ("farewell", [("en", "Goodbye! Have a great day!")]),
   ("help", [("en", "I\x27m here to help! Please let me know what you need assistance with.")]),
   ("unknown", [("en", "I\x27m not sure I understand. Could you please rephrase that?")])]

/-! ## Language detector
`LanguageDetector.detect_language`, src/src/ml/language_detector.py
lines 49-83. -/

/-- `LanguageDetector.detect_language(text)`: when the constructor's model
load failed (`self.initialized` is `False`, set once in `__init__`,
lines 32-47), return the constant `("en", 0.5)` (lines 60-62); otherwise run
the model (`primary`), any per-request exception likewise falling back to
`("en", 0.5)` (lines 80-83). -/
def detect_language (initialized : Bool) (primary : String → Option (String × ℚ))
    (text : String) : String × ℚ :=
  if !initialized then ("en", mkRat 1 2)
  else
    match primary text with
    | some r => r
    | none => ("en", mkRat 1 2)

/-- The condition under which the detector is in its degraded mode: exactly
the branch guard `if not self.initialized:` of line 60 — the code signals
degradation through the constructor-set `initialized` flag rather than a
field of the returned tuple. -/
def detection_degraded (initialized : Bool) : Bool :=
  !initialized

/-! ## Interleaving model of the translation-cache race
Two concurrent callers of `_get_translation_model` on the same uncached
language pair.  Each thread executes, for one contested `model_key`, the
atomic steps of lines 110-123 of response_generator.py in order:
the membership check `if model_key not in self.translation_models`
(line 110), the loader call `from_pretrained` (lines 121-122), and the dict
store (line 123); each dict operation is atomic under the interpreter lock.
Loads succeed in this scenario (the race is about duplicate work, not about
failures), so a handle needs no payload. -/

/-- Program counter of one thread inside `_get_translation_model`. -/
inductive ThreadPhase where
  /-- About to execute the membership check of line 110. -/
  | atCheck
  /-- Observed a miss; about to call `from_pretrained` (lines 121-122). -/
  | atLoad
  /-- Holding a loaded model; about to store it (line 123). -/
  | atStore
  /-- Returned. -/
  | phDone
  deriving Repr, DecidableEq

/-- Shared and per-thread state of the two-thread race for one model key:
whether the key is present in `self.translation_models`, how many loader
calls have happened, and both program counters. -/
structure RaceState where
  cached : Bool
  loads : ℕ
  pcA : ThreadPhase
  pcB : ThreadPhase
  deriving Repr, DecidableEq

/-- One atomic step of a single thread: the check either returns at once
(cache hit) or proceeds to the load; the load ticks the counter; the store
publishes the entry. -/
def phaseStep (cached : Bool) (loads : ℕ) :
    ThreadPhase → Bool × ℕ × ThreadPhase
  | .atCheck => (cached, loads, if cached then .phDone else .atLoad)
  | .atLoad => (cached, loads + 1, .atStore)
  | .atStore => (true, loads, .phDone)
  | .phDone => (cached, loads, .phDone)

/-- One step of the interleaved system: `false` steps thread A, `true`
steps thread B. -/
def raceStep (s : RaceState) (thread : Bool) : RaceState :=
  if thread then
    let r := phaseStep s.cached s.loads s.pcB
    { s with cached := r.1, loads := r.2.1, pcB := r.2.2 }
  else
    let r := phaseStep s.cached s.loads s.pcA
    { s with cached := r.1, loads := r.2.1, pcA := r.2.2 }

/-- Run a schedule (a list of thread choices) from a state. -/
def raceRun (sched : List Bool) (s : RaceState) : RaceState :=
  sched.foldl raceStep s

/-- Both threads start at the membership check, the pair uncached, no
loader call yet performed. -/
def raceInit : RaceState :=
  { cached := false, loads := 0, pcA := .atCheck, pcB := .atCheck }

/-- Number of loader calls a thread may still perform from a given phase:
one before the load has happened, none afterwards.  Used to bound the
total number of loads over any schedule. -/
def phaseBudget : ThreadPhase → ℕ
  | .atCheck => 1
  | .atLoad => 1
  | .atStore => 0
  | .phDone => 0

/-! ## Helper lemmas -/

theorem foldl_invariant {α β : Type} (P : α → Prop) (f : α → β → α) :
    ∀ (l : List β) (init : α), P init → (∀ a b, P a → P (f a b)) → P (l.foldl f init)
  | [], _, h0, _ => h0
  | b :: t, init, h0, hstep =>
    foldl_invariant P f t (f init b) (hstep init b h0) hstep

theorem le_rmax_left (a b : ℚ) : a ≤ rmax a b := by
  rw [rmax]; split
  · assumption
  · exact le_refl a

theorem le_rmax_right (a b : ℚ) : b ≤ rmax a b := by
  rw [rmax]; split
  · exact le_refl b
  · next h => exact le_of_lt (lt_of_not_le h)

theorem rmax_le {a b c : ℚ} (ha : a ≤ c) (hb : b ≤ c) : rmax a b ≤ c := by
  rw [rmax]; split <;> assumption

theorem rmax_eq_right {a b : ℚ} (h : a ≤ b) : rmax a b = b := if_pos h

theorem rmax_eq_left {a b : ℚ} (h : b ≤ a) : rmax a b = a := by
  rw [rmax]; split
  · next h2 => exact le_antisymm h h2
  · rfl

theorem rmin_le_right (a b : ℚ) : rmin a b ≤ b := by
  rw [rmin]; split
  · assumption
  · exact le_refl b

theorem le_rmin {a b c : ℚ} (ha : c ≤ a) (hb : c ≤ b) : c ≤ rmin a b := by
  rw [rmin]; split <;> assumption

theorem rmin_eq_min (a b : ℚ) : rmin a b = min a b := by
  by_cases h : a ≤ b <;> simp [rmin, min_def, h]

theorem qadd_eq (a b : ℚ) : qadd a b = a + b := by
  rw [qadd, Rat.mkRat_eq_divInt, Rat.add_num_den a b]
  push_cast
  ring_nf

theorem qmul_eq (a b : ℚ) : qmul a b = a * b := by
  rw [qmul, Rat.mkRat_eq_divInt]
  push_cast
  rw [← Rat.divInt_mul_divInt]
  · rw [Rat.num_divInt_den, Rat.num_divInt_den]
  · exact_mod_cast a.den_nz
  · exact_mod_cast b.den_nz

theorem mkRat_half : (mkRat 1 2 : ℚ) = 1 / 2 := by
  norm_num [Rat.mkRat_eq_div]

theorem mkRat_tenth : (mkRat 1 10 : ℚ) = 1 / 10 := by
  norm_num [Rat.mkRat_eq_div]

theorem mkRat_cap : (mkRat 19 20 : ℚ) = 19 / 20 := by
  norm_num [Rat.mkRat_eq_div]

theorem mkRat_short_conf : (mkRat 3 5 : ℚ) = 3 / 5 := by
  norm_num [Rat.mkRat_eq_div]

theorem intentScore_nonneg (tl : String) (kws : List String) :
    0 ≤ intentScore tl kws := by
  rw [intentScore, qadd_eq, qmul_eq, Rat.mkRat_one, Rat.mkRat_one, mkRat_half]
  push_cast
  positivity

theorem le_foldl_rmax : ∀ (l : List ℚ) (a : ℚ), a ≤ l.foldl rmax a
  | [], a => le_refl a
  | x :: t, a => le_trans (le_rmax_left a x) (le_foldl_rmax t (rmax a x))

theorem foldl_rmax_le : ∀ (l : List ℚ) (a c : ℚ), a ≤ c → (∀ x ∈ l, x ≤ c) →
    l.foldl rmax a ≤ c
  | [], _, _, ha, _ => ha
  | x :: t, a, c, ha, hl =>
    foldl_rmax_le t (rmax a x) c (rmax_le ha (hl x (.head t)))
      (fun y hy => hl y (.tail x hy))

theorem listMaxD_le (l : List ℚ) (c : ℚ) (hc : -1 ≤ c) (h : ∀ x ∈ l, x ≤ c) :
    listMaxD l ≤ c := by
  cases l with
  | nil => exact hc
  | cons a t =>
    exact foldl_rmax_le t a c (h a (.head t)) (fun y hy => h y (.tail a hy))

theorem selectFold_keep : ∀ (l : List (String × ℚ)) (acc : String × ℚ),
    (∀ q ∈ l, q.2 ≤ acc.2) → l.foldl selectStep acc = acc
  | [], _, _ => rfl
  | p :: t, acc, h => by
    have hp : ¬ acc.2 < p.2 := not_lt.mpr (h p (.head t))
    rw [List.foldl_cons, selectStep, if_neg hp]
    exact selectFold_keep t acc (fun q hq => h q (.tail p hq))

theorem selectFold_lt : ∀ (l : List (String × ℚ)) (acc : String × ℚ) (c : ℚ),
    acc.2 < c → (∀ q ∈ l, q.2 < c) → (l.foldl selectStep acc).2 < c
  | [], _, _, ha, _ => ha
  | p :: t, acc, c, ha, h => by
    rw [List.foldl_cons]
    refine selectFold_lt t _ c ?_ (fun q hq => h q (.tail p hq))
    rw [selectStep]
    split
    · exact h p (.head t)
    · exact ha

theorem selectFold_first_max (pre post : List (String × ℚ)) (p : String × ℚ)
    (acc : String × ℚ) (hacc : acc.2 < p.2) (hpre : ∀ q ∈ pre, q.2 < p.2)
    (hpost : ∀ q ∈ post, q.2 ≤ p.2) :
    (pre ++ p :: post).foldl selectStep acc = p := by
  rw [List.foldl_append, List.foldl_cons]
  have h1 : (pre.foldl selectStep acc).2 < p.2 := selectFold_lt pre acc p.2 hacc hpre
  rw [selectStep, if_pos h1]
  exact selectFold_keep post p hpost

theorem selectFold_snd : ∀ (l : List (String × ℚ)) (acc : String × ℚ),
    (l.foldl selectStep acc).2 = l.foldl (fun m p => rmax m p.2) acc.2
  | [], _ => rfl
  | p :: t, acc => by
    rw [List.foldl_cons, List.foldl_cons, selectFold_snd t (selectStep acc p)]
    congr 1
    rw [selectStep]
    split
    · next h => exact (rmax_eq_right (le_of_lt h)).symm
    · next h => exact (rmax_eq_left (not_lt.mp h)).symm

theorem lookup_mem {β : Type} :
    ∀ {l : List (String × β)} {k : String} {v : β},
      l.lookup k = some v → (k, v) ∈ l := by
  intro l
  induction l with
  | nil => intro k v h; simp [List.lookup] at h
  | cons p t ih =>
    intro k v h
    obtain ⟨a, b⟩ := p
    simp only [List.lookup] at h
    split at h
    · next heq =>
      obtain rfl : k = a := eq_of_beq heq
      obtain rfl : b = v := by injection h
      exact .head t
    · exact .tail _ (ih h)

/-! ## Claim theorems -/

/-- C1, counterexample.  The claim states that `classify(text).confidence`
lies in `[0, 0.95]` on the embedding-similarity path — but that path
returns the raw maximum cosine similarity unclamped (intent_classifier.py
line 143).  An input text equal to a stored exemplar (here `"hello"`, a
declared greeting exemplar) is encoded to the very same vector, whose
cosine similarity with itself is `1`, so the classifier returns confidence
`1 > 0.95`. -/
theorem classify_confidence_counterexample :
    (classify_intent (fun _ : String => ()) (fun _ _ : Unit => 1)
        [("greeting", [()])] true "hello" (mkRat 1 2)).2 = 1 ∧
    ¬ ((0 : ℚ) ≤ (classify_intent (fun _ : String => ()) (fun _ _ : Unit => 1)
          [("greeting", [()])] true "hello" (mkRat 1 2)).2 ∧
        (classify_intent (fun _ : String => ()) (fun _ _ : Unit => 1)
          [("greeting", [()])] true "hello" (mkRat 1 2)).2 ≤ 19 / 20) := by
  have h1 : (classify_intent (fun _ : String => ()) (fun _ _ : Unit => 1)
      [("greeting", [()])] true "hello" (mkRat 1 2)).2 = 1 := by decide
  refine ⟨h1, ?_⟩
  intro hcon
  rw [h1] at hcon
  have := hcon.2
  norm_num at this

/-- Auxiliary shape of the classifier's returned confidence: it is either
the literal `0` of the degraded early return or the loop's running maximum
similarity. -/
theorem classify_intent_snd {Emb : Type} (encode : String → Emb)
    (cosSim : Emb → Emb → ℚ) (intentEmbeddings : List (String × List Emb))
    (initialized : Bool) (text : String) (threshold : ℚ) :
    (classify_intent encode cosSim intentEmbeddings initialized text threshold).2 = 0 ∨
    (classify_intent encode cosSim intentEmbeddings initialized text threshold).2
      = globalMax (intentScores cosSim (encode text) intentEmbeddings) := by
  have h := selectFold_snd (intentScores cosSim (encode text) intentEmbeddings)
    ("unknown", -1)
  unfold classify_intent
  split
  · exact Or.inl rfl
  · right
    split
    · simpa [selectBest, globalMax] using h
    · simpa [selectBest, globalMax] using h

/-- C1, amended.  On the embedding-similarity path the returned confidence
is the unclamped maximum cosine similarity, so it lies in `[-1, 1]`
(assuming every cosine similarity does), not in `[0, 0.95]`; on the
keyword-heuristic fallback path the confidence does lie in `[0, 0.95]`.
Whenever the similarity is below threshold the intent is `"unknown"`
(proved separately as the C3 theorem). -/
theorem classify_confidence_bounds {Emb : Type} (encode : String → Emb)
    (cosSim : Emb → Emb → ℚ) (intentEmbeddings : List (String × List Emb))
    (initialized : Bool) (text : String) (threshold : ℚ)
    (hb : ∀ a b : Emb, -1 ≤ cosSim a b ∧ cosSim a b ≤ 1) :
    (-1 ≤ (classify_intent encode cosSim intentEmbeddings initialized text threshold).2 ∧
      (classify_intent encode cosSim intentEmbeddings initialized text threshold).2 ≤ 1) ∧
    ∀ t : String, 0 ≤ (process_query_intent t).2 ∧ (process_query_intent t).2 ≤ 19 / 20 := by
  constructor
  · rcases classify_intent_snd encode cosSim intentEmbeddings initialized text threshold
      with h | h
    · rw [h]; constructor <;> norm_num
    · rw [h]
      unfold globalMax
      rw [← List.foldl_map (fun p : String × ℚ => p.2) rmax]
      constructor
      · exact le_foldl_rmax _ _
      · refine foldl_rmax_le _ _ _ (by norm_num) ?_
        intro x hx
        obtain ⟨q, hq, rfl⟩ := List.mem_map.mp hx
        rw [intentScores] at hq
        obtain ⟨p, _, rfl⟩ := List.mem_map.mp hq
        refine listMaxD_le _ _ (by norm_num) ?_
        intro y hy
        obtain ⟨e, _, rfl⟩ := List.mem_map.mp hy
        exact (hb _ _).2
  · intro t
    unfold process_query_intent process_query_intent_with
    split
    · constructor
      · show (0 : ℚ) ≤ mkRat 3 5
        rw [mkRat_short_conf]; norm_num
      · show (mkRat 3 5 : ℚ) ≤ 19 / 20
        rw [mkRat_short_conf]; norm_num
    · have h := foldl_invariant
        (fun acc : String × ℚ × ℚ => 0 ≤ acc.2.2 ∧ acc.2.2 ≤ 19 / 20)
        (pqStep (strLower t)) intent_patterns ("unknown", 0, mkRat 1 2)
        ⟨by rw [mkRat_half]; norm_num, by rw [mkRat_half]; norm_num⟩ ?_
      · exact h
      · intro acc p hacc
        rw [pqStep]
        split
        · constructor
          · refine le_rmin ?_ ?_
            · rw [qadd_eq, qmul_eq, mkRat_half, mkRat_tenth]
              have hs := intentScore_nonneg (strLower t) p.2
              nlinarith
            · rw [mkRat_cap]; norm_num
          · exact le_trans (rmin_le_right _ _) (le_of_eq mkRat_cap)
        · exact hacc

/-- C2: iterating intents in the declaration order of the exemplar table,
an intent whose per-intent maximum similarity is equal to or smaller than
the running maximum never replaces the current best (the update guard of
intent_classifier.py line 135 is strict), so the first intent attaining
the global maximum is returned, with that maximum as confidence. -/
theorem classify_intent_tiebreak {Emb : Type} (encode : String → Emb)
    (cosSim : Emb → Emb → ℚ) (pre post : List (String × List Emb))
    (name : String) (es : List Emb) (text : String) (threshold : ℚ)
    (hm : -1 < listMaxD (es.map fun e => cosSim (encode text) e))
    (hpre : ∀ q ∈ pre, listMaxD (q.2.map fun e => cosSim (encode text) e)
      < listMaxD (es.map fun e => cosSim (encode text) e))
    (hpost : ∀ q ∈ post, listMaxD (q.2.map fun e => cosSim (encode text) e)
      ≤ listMaxD (es.map fun e => cosSim (encode text) e))
    (ht : threshold ≤ listMaxD (es.map fun e => cosSim (encode text) e)) :
    classify_intent encode cosSim (pre ++ (name, es) :: post) true text threshold
      = (name, listMaxD (es.map fun e => cosSim (encode text) e)) := by
  have hsel : selectBest (intentScores cosSim (encode text) (pre ++ (name, es) :: post))
      = (name, listMaxD (es.map fun e => cosSim (encode text) e)) := by
    unfold selectBest intentScores
    rw [List.map_append, List.map_cons]
    refine selectFold_first_max _ _ _ _ hm ?_ ?_
    · intro q hq
      obtain ⟨p, hp, rfl⟩ := List.mem_map.mp hq
      exact hpre p hp
    · intro q hq
      obtain ⟨p, hp, rfl⟩ := List.mem_map.mp hq
      exact hpost p hp
  unfold classify_intent
  rw [if_neg (by simp)]
  rw [hsel, if_neg (not_lt.mpr ht)]

/-- C2, witness: two intents tied at similarity `4/5`; the one declared
first (`"greeting"`) wins. -/
theorem classify_intent_tiebreak_witness :
    classify_intent (fun _ : String => ()) (fun _ _ : Unit => mkRat 4 5)
      [("greeting", [()]), ("farewell", [()])] true "hi" (mkRat 1 2)
      = ("greeting", mkRat 4 5) :=
  classify_intent_tiebreak (fun _ => ()) (fun _ _ => mkRat 4 5) [] [("farewell", [()])]
    "greeting" [()] "hi" (mkRat 1 2) (by decide) (by decide) (by decide) (by decide)

/-- C3: whenever the loop's global maximum similarity is strictly below the
threshold, the classifier returns intent `"unknown"` paired with that very
maximum as confidence (intent_classifier.py lines 139-141), not a fixed
sentinel. -/
theorem classify_intent_below_threshold {Emb : Type} (encode : String → Emb)
    (cosSim : Emb → Emb → ℚ) (intentEmbeddings : List (String × List Emb))
    (text : String) (threshold : ℚ)
    (hne : intentEmbeddings ≠ [])
    (hlt : globalMax (intentScores cosSim (encode text) intentEmbeddings) < threshold) :
    classify_intent encode cosSim intentEmbeddings true text threshold
      = ("unknown", globalMax (intentScores cosSim (encode text) intentEmbeddings)) := by
  have hsnd : (selectBest (intentScores cosSim (encode text) intentEmbeddings)).2
      = globalMax (intentScores cosSim (encode text) intentEmbeddings) :=
    selectFold_snd _ _
  unfold classify_intent
  rw [if_neg (by simp [List.isEmpty_iff, hne])]
  rw [hsnd, if_pos hlt]

/-- C3, witness: a single intent whose only similarity is `-1/2`, below the
threshold `1/2`; the classifier reports `"unknown"` with `-1/2` itself. -/
theorem classify_intent_below_threshold_witness :
    classify_intent (fun _ : String => ()) (fun _ _ : Unit => mkRat (-1) 2)
      [("greeting", [()])] true "zzz" (mkRat 1 2) = ("unknown", mkRat (-1) 2) := by
  have h := classify_intent_below_threshold (fun _ : String => ())
    (fun _ _ : Unit => mkRat (-1) 2) [("greeting", [()])] "zzz" (mkRat 1 2)
    (by decide) (by decide)
  rw [h]
  decide

/-- C1 amended, witness: a concrete similarity function with all cosine
values `1/2` and the fallback classifier, both within bounds. -/
theorem classify_confidence_bounds_witness :
    (-1 ≤ (classify_intent (fun _ : String => ()) (fun _ _ : Unit => mkRat 1 2)
        [("greeting", [()])] true "hi" (mkRat 1 2)).2 ∧
      (classify_intent (fun _ : String => ()) (fun _ _ : Unit => mkRat 1 2)
        [("greeting", [()])] true "hi" (mkRat 1 2)).2 ≤ 1) ∧
    ∀ t : String, 0 ≤ (process_query_intent t).2 ∧ (process_query_intent t).2 ≤ 19 / 20 :=
  classify_confidence_bounds (fun _ => ()) (fun _ _ => mkRat 1 2) [("greeting", [()])]
    true "hi" (mkRat 1 2)
    (fun _ _ => ⟨by rw [mkRat_half]; norm_num, by rw [mkRat_half]; norm_num⟩)

theorem pqFold_keep :
    ∀ (l : List (String × List String)) (tl : String) (acc : String × ℚ × ℚ),
      (∀ q ∈ l, intentScore tl q.2 ≤ acc.2.1) → l.foldl (pqStep tl) acc = acc
  | [], _, _, _ => rfl
  | p :: t, tl, acc, h => by
    have hp : ¬ acc.2.1 < intentScore tl p.2 := not_lt.mpr (h p (.head t))
    rw [List.foldl_cons, pqStep, if_neg hp]
    exact pqFold_keep t tl acc (fun q hq => h q (.tail p hq))

theorem pqFold_lt :
    ∀ (l : List (String × List String)) (tl : String) (acc : String × ℚ × ℚ) (c : ℚ),
      acc.2.1 < c → (∀ q ∈ l, intentScore tl q.2 < c) →
      (l.foldl (pqStep tl) acc).2.1 < c
  | [], _, _, _, ha, _ => ha
  | p :: t, tl, acc, c, ha, h => by
    rw [List.foldl_cons]
    refine pqFold_lt t tl _ c ?_ (fun q hq => h q (.tail p hq))
    rw [pqStep]
    split
    · exact h p (.head t)
    · exact ha

/-- C4: in the keyword fallback, the declared intent whose score
`full_matches + 0.5 * partial_matches` is the (first) maximum — positive —
is selected, and the reported confidence is
`min(0.5 + 0.1 * score, 0.95)` computed from that intent's own score
(app.py lines 214-225). -/
theorem process_query_intent_argmax (pre post : List (String × List String))
    (name : String) (kws : List String) (text : String)
    (hname : name ≠ "unknown")
    (hpos : 0 < intentScore (strLower text) kws)
    (hpre : ∀ q ∈ pre, intentScore (strLower text) q.2 < intentScore (strLower text) kws)
    (hpost : ∀ q ∈ post, intentScore (strLower text) q.2 ≤ intentScore (strLower text) kws) :
    process_query_intent_with (pre ++ (name, kws) :: post) text
      = (name, min (1 / 2 + intentScore (strLower text) kws * (1 / 10)) (19 / 20)) := by
  have hfold : (pre ++ (name, kws) :: post).foldl (pqStep (strLower text))
      ("unknown", 0, mkRat 1 2)
      = (name, intentScore (strLower text) kws,
          rmin (qadd (mkRat 1 2) (qmul (intentScore (strLower text) kws) (mkRat 1 10)))
            (mkRat 19 20)) := by
    rw [List.foldl_append, List.foldl_cons]
    have h1 : (pre.foldl (pqStep (strLower text)) ("unknown", 0, mkRat 1 2)).2.1
        < intentScore (strLower text) kws :=
      pqFold_lt pre (strLower text) _ _ hpos hpre
    rw [pqStep, if_pos h1]
    exact pqFold_keep post (strLower text) _ (fun q hq => hpost q hq)
  unfold process_query_intent_with
  rw [hfold, if_neg (by simp [hname])]
  rw [rmin_eq_min, qadd_eq, qmul_eq, mkRat_half, mkRat_tenth, mkRat_cap]

/-- C4, witness: on input `"price"` the pricing intent scores `1.5` (one
substring match plus one token-prefix match) while every other intent
scores `0`, so the fallback returns `("pricing", 0.65)`. -/
theorem process_query_intent_argmax_witness :
    process_query_intent "price" = ("pricing", 13 / 20) := by
  have h := process_query_intent_argmax
    [("greeting", greetingKeywords), ("farewell", farewellKeywords),
     ("help", helpKeywords), ("product_info", productInfoKeywords)]
    [("contact", contactKeywords), ("technical_support", technicalSupportKeywords)]
    "pricing" pricingKeywords "price"
    (by decide) (by decide) (by decide) (by decide)
  have e : intent_patterns
      = [("greeting", greetingKeywords), ("farewell", farewellKeywords),
         ("help", helpKeywords), ("product_info", productInfoKeywords)]
        ++ ("pricing", pricingKeywords)
        :: [("contact", contactKeywords), ("technical_support", technicalSupportKeywords)] :=
    rfl
  unfold process_query_intent
  rw [e, h]
  have hs : intentScore (strLower "price") pricingKeywords = mkRat 3 2 := by decide
  rw [hs]
  congr 1
  rw [Rat.mkRat_eq_div]
  rw [min_eq_left (by norm_num)]
  norm_num

/-- C5: when every declared intent scores exactly `0` and the input has at
most 3 whitespace-delimited tokens, the fallback classifies the input as
`"greeting"` with confidence exactly `0.6` (app.py lines 227-230). -/
theorem process_query_intent_short_greeting (text : String)
    (hz : ∀ q ∈ intent_patterns, intentScore (strLower text) q.2 = 0)
    (hlen : (pySplit (strLower text)).length ≤ 3) :
    process_query_intent text = ("greeting", 3 / 5) := by
  have hfold : intent_patterns.foldl (pqStep (strLower text)) ("unknown", 0, mkRat 1 2)
      = ("unknown", 0, mkRat 1 2) :=
    pqFold_keep intent_patterns (strLower text) _ (fun q hq => le_of_eq (hz q hq))
  unfold process_query_intent process_query_intent_with
  rw [hfold, if_pos ⟨rfl, hlen⟩, mkRat_short_conf]

/-- C5, witness: the spec's own end-to-end example, the single token
`"xyz"`, matches no keyword of any intent. -/
theorem process_query_intent_short_greeting_witness :
    process_query_intent "xyz" = ("greeting", 3 / 5) :=
  process_query_intent_short_greeting "xyz" (by decide) (by decide)

/-- C6: an intent absent from the response table is replaced by
`"unknown"` before any lookup or translation
(response_generator.py lines 176-177), so the whole call behaves exactly
like a call for `"unknown"`, state effects included. -/
theorem get_response_missing_intent {H : Type} (loader : String → Option H)
    (runT : H → String → Option String)
    (responses : List (String × List (String × String)))
    (st : GenState H) (intent language : String)
    (hmiss : responses.lookup intent = none) :
    get_response loader runT responses st intent language
      = get_response loader runT responses st "unknown" language := by
  have h1 : (if (responses.lookup intent).isNone then "unknown" else intent)
      = "unknown" := by rw [hmiss]; rfl
  have h2 : (if (responses.lookup "unknown").isNone then "unknown" else "unknown")
      = "unknown" := ite_self _
  unfold get_response
  rw [h1, h2]

/-- C6, witness: `"nonexistent-intent"` is absent from the fallback
response table, and the call coincides with the `"unknown"` call. -/
theorem get_response_missing_intent_witness :
    get_response (fun _ => (none : Option Unit)) (fun _ _ => none) fallbackResponses
      ⟨[], 0⟩ "nonexistent-intent" "fr"
      = get_response (fun _ => (none : Option Unit)) (fun _ _ => none) fallbackResponses
        ⟨[], 0⟩ "unknown" "fr" :=
  get_response_missing_intent _ _ _ _ _ _ (by decide)

/-- C7: with the model unavailable (the constructor-set `initialized` flag
is false, language_detector.py lines 32-47), `detect_language` returns the
constant `("en", 0.5)` for every input text (lines 60-62); the confidence
lies in `[0, 1]`, and the detector is in its degraded mode — the code
signals degradation through the `initialized` flag tested at line 60 rather
than a field of the returned tuple. -/
theorem detect_language_fallback (primary : String → Option (String × ℚ))
    (text : String) (initialized : Bool) (h : initialized = false) :
    detect_language initialized primary text = ("en", 1 / 2) ∧
    (0 : ℚ) ≤ (detect_language initialized primary text).2 ∧
    (detect_language initialized primary text).2 ≤ 1 ∧
    detection_degraded initialized = true := by
  subst h
  have h1 : detect_language false primary text = ("en", mkRat 1 2) := rfl
  refine ⟨?_, ?_, ?_, rfl⟩
  · rw [h1, mkRat_half]
  · rw [h1]
    show (0 : ℚ) ≤ mkRat 1 2
    rw [mkRat_half]; norm_num
  · rw [h1]
    show (mkRat 1 2 : ℚ) ≤ 1
    rw [mkRat_half]; norm_num

/-- C7, witness: a failed-load detector on the input `"hola"`. -/
theorem detect_language_fallback_witness :
    detect_language false (fun _ => none) "hola" = ("en", 1 / 2) ∧
    (0 : ℚ) ≤ (detect_language false (fun _ => none) "hola").2 ∧
    (detect_language false (fun _ => none) "hola").2 ≤ 1 ∧
    detection_degraded false = true :=
  detect_language_fallback (fun _ => none) "hola" false rfl

/-- C8, counterexample.  After a failed resolution of the pair
`("en", "es")` from an empty cache, the cache still has no entry for the
model key `"en-es"` — no tombstone is recorded, since the caught failure
of `_get_translation_model` returns without storing anything
(response_generator.py lines 125-127) — and a second request for the very
same pair performs a second loader call (`loads` reaches `2`), so later
requests do retry the expensive load, contradicting the claim. -/
theorem translation_tombstone_counterexample :
    (get_translation_model (fun _ => (none : Option Unit)) ⟨[], 0⟩ "en" "es").2.cache
      = [] ∧
    (get_translation_model (fun _ => (none : Option Unit))
        (get_translation_model (fun _ => (none : Option Unit)) ⟨[], 0⟩ "en" "es").2
        "en" "es").2.loads = 2 := by
  decide

/-- C8, amended: when resolving a translation handle for a pair fails, the
code records no tombstone — the cache is left unchanged, so every later
request for the same pair retries the load (each call ticks the load
counter again) — while the respond path still falls back to the English
template text. -/
theorem failed_resolution_no_tombstone {H : Type} (loader : String → Option H)
    (runT : H → String → Option String) (st : GenState H)
    (language : String) (responses : List (String × List (String × String)))
    (intent : String) (tmpl : List (String × String)) (enText : String)
    (hlang : "en" ≠ language)
    (hmiss : st.cache.lookup ("en" ++ "-" ++ language) = none)
    (hfail : loader ("en" ++ "-" ++ language) = none)
    (hint : responses.lookup intent = some tmpl)
    (html : tmpl.lookup language = none)
    (hen : tmpl.lookup "en" = some enText) :
    get_translation_model loader st "en" language
      = (none, { st with loads := st.loads + 1 }) ∧
    (get_translation_model loader { st with loads := st.loads + 1 }
        "en" language).2.loads = st.loads + 2 ∧
    (get_response loader runT responses st intent language).1 = some enText := by
  have h1 : get_translation_model loader st "en" language
      = (none, { st with loads := st.loads + 1 }) := by
    unfold get_translation_model
    rw [if_neg hlang, hmiss, hfail]
  have h2 : (get_translation_model loader { st with loads := st.loads + 1 }
      "en" language).2.loads = st.loads + 2 := by
    unfold get_translation_model
    rw [if_neg hlang]
    dsimp only
    rw [hmiss, hfail]
  have htr : translate loader runT st enText "en" language
      = (none, { st with loads := st.loads + 1 }) := by
    unfold translate
    rw [if_neg hlang, h1]
  have hk : (if (responses.lookup intent).isNone then "unknown" else intent)
      = intent := by rw [hint]; rfl
  refine ⟨h1, h2, ?_⟩
  unfold get_response
  rw [hk, hint]
  dsimp only
  rw [html, hen]
  dsimp only
  rw [htr]

/-- C8 amended, witness: the concrete failing loader on the pair
`("en", "es")` with the fallback response table; the greeting request
falls back to the English template. -/
theorem failed_resolution_no_tombstone_witness :
    (get_response (fun _ => (none : Option Unit)) (fun _ _ => none) fallbackResponses
        ⟨[], 0⟩ "greeting" "es").1 = some "Hello! How can I assist you today?" :=
  (failed_resolution_no_tombstone (fun _ => none) (fun _ _ => none) ⟨[], 0⟩ "es"
    fallbackResponses "greeting" [("en", "Hello! How can I assist you today?")]
    "Hello! How can I assist you today?" (by decide) (by decide) (by decide)
    (by decide) (by decide) (by decide)).2.2

/-- C9, counterexample.  `_get_translation_model` has no lock: under the
interleaved schedule in which both threads pass the membership check of
line 110 before either stores, both perform the expensive load — two
loader calls for one pair, contradicting the claimed
check-then-lock-then-recheck guarantee of exactly one load. -/
theorem race_duplicate_load_counterexample :
    (raceRun [false, true, false, false, true, true] raceInit).loads = 2 ∧
    (raceRun [false, true, false, false, true, true] raceInit).pcA
      = ThreadPhase.phDone ∧
    (raceRun [false, true, false, false, true, true] raceInit).pcB
      = ThreadPhase.phDone ∧
    (raceRun [false, true, false, false, true, true] raceInit).cached = true := by
  decide

/-- C9, amended: the code resolves a missing pair with an unlocked
check-then-load-then-store; each racer performs at most one load, so with
two racers any schedule performs at most two loads — not at most one —
and a fully sequential schedule performs exactly one. -/
theorem race_load_bound :
    (∀ sched : List Bool, (raceRun sched raceInit).loads ≤ 2) ∧
    (raceRun [false, false, false, true] raceInit).loads = 1 ∧
    (raceRun [false, false, false, true] raceInit).cached = true := by
  refine ⟨?_, by decide, by decide⟩
  intro sched
  unfold raceRun
  have h := foldl_invariant
    (fun s : RaceState => s.loads + phaseBudget s.pcA + phaseBudget s.pcB ≤ 2)
    raceStep sched raceInit (by decide) ?_
  · omega
  · intro s th hs
    rcases th <;> rcases hA : s.pcA <;> rcases hB : s.pcB <;> rcases hc : s.cached <;>
      simp [raceStep, phaseStep, phaseBudget, hA, hB, hc] at hs ⊢ <;> omega

/-- C10: `get_response` always returns a string (never raises), provided
the table has an `"unknown"` entry and every intent's per-language table
is non-empty; the `none` results in the embedding correspond exactly to
the `KeyError` of line 180 and the `StopIteration` of line 195, the only
ways the Python method could raise, and both are excluded by the two
hypotheses. -/
theorem get_response_total {H : Type} (loader : String → Option H)
    (runT : H → String → Option String)
    (responses : List (String × List (String × String)))
    (st : GenState H) (intent language : String)
    (hunk : (responses.lookup "unknown").isSome = true)
    (hne : ∀ p ∈ responses, p.2 ≠ []) :
    (get_response loader runT responses st intent language).1.isSome = true := by
  unfold get_response
  set key := if (responses.lookup intent).isNone then "unknown" else intent with hkey
  have hsome : (responses.lookup key).isSome = true := by
    rw [hkey]
    rcases ho : responses.lookup intent with _ | v
    · simpa [ho] using hunk
    · simp [ho]
  obtain ⟨tmpl, htm⟩ := Option.isSome_iff_exists.mp hsome
  rw [htm]
  rcases hl : tmpl.lookup language with _ | r
  · rcases he : tmpl.lookup "en" with _ | en
    · have hnil := hne (key, tmpl) (lookup_mem htm)
      rcases tmpl with _ | ⟨p0, t0⟩
      · exact absurd rfl hnil
      · simp [hl, he]
    · rcases ht : translate loader runT st en "en" language with ⟨_ | tr, st1⟩
      · simp [hl, he, ht]
      · by_cases hemp : tr = "" <;> simp [hl, he, ht, hemp]
  · simp [hl]

/-- C10, witness: the absent intent `"pricing"` in German against the
fallback table, which has an `"unknown"` entry and no empty per-intent
table. -/
theorem get_response_total_witness :
    (get_response (fun _ => (none : Option Unit)) (fun _ _ => none) fallbackResponses
        ⟨[], 0⟩ "pricing" "de").1.isSome = true :=
  get_response_total _ _ _ _ _ _ (by decide) (by decide)

end CSupport
